import Mathlib

/-!
Verification of the wedy-backend payment/reconciliation core and the review
aggregation paths, as a shallow embedding of the Python source
(`app/external_services/payme_service.py`, `app/crud/payment_crud.py`,
`app/routers/payme_router.py`, `app/crud/interaction_crud.py`).

Modelling conventions:
* `datetime` instants are abstract integers (seconds); `timedelta(days=d)` is
  `d * 86400`.
* Python dicts parsed from JSON are association lists `List (String × JVal)`;
  a `JVal.raw` constructor stands for a Python object that `json.dumps`
  cannot serialize.
* `hmac.new(key, msg, sha256).hexdigest()` is modelled as an abstract keyed
  digest `hmacHex : String → String → String` carried by the service value;
  collision-freedom (injectivity) is assumed explicitly where a theorem
  needs it.
* A Python exception that escapes a function (is not caught there) is the
  `.error` case of an `Except Exc _` result; exceptions caught and converted
  to return values inside the source function are ordinary values.
-/

/-- A JSON-like Python value.  `raw` marks a value `json.dumps` rejects. -/
inductive JVal where
  | null : JVal
  | bool : Bool → JVal
  | num : Int → JVal
  | str : String → JVal
  | arr : List JVal → JVal
  | obj : List (String × JVal) → JVal
  | raw : Nat → JVal

/-- First binding of key `k` in an association list (Python `dict` lookup:
keys are unique in a real dict, so first-match is exact). -/
def lookupField (fs : List (String × JVal)) (k : String) : Option JVal :=
  match fs.find? (fun kv => kv.1 == k) with
  | some kv => some kv.2
  | none => none

/-- Python truthiness of a JSON value (`if x:`). -/
def truthy : JVal → Bool
  | .null => false
  | .bool b => b
  | .num n => n != 0
  | .str s => s != ""
  | .arr xs => !xs.isEmpty
  | .obj fs => !fs.isEmpty
  | .raw _ => true

/-- Python `str(x)` for the values that can reach a message position. -/
def pyStr : JVal → String
  | .str s => s
  | .num n => toString n
  | .bool true => "True"
  | .bool false => "False"
  | .null => "None"
  | .arr _ => "<list>"
  | .obj _ => "<dict>"
  | .raw n => "<object " ++ toString n ++ ">"

/-- JSON string literal with the two escapes that matter for round-tripping
(`json.dumps` escaping of `"` and `\`). -/
def jStr (s : String) : String :=
  "\"" ++ String.join (s.data.map (fun c =>
    if c = '"' then "\\\"" else if c = '\\' then "\\\\" else String.singleton c)) ++ "\""

mutual
/-- Model of `json.dumps(v, separators=(',', ':'))`: canonical compact serialization,
insertion order preserved; `none` models the `TypeError` raised on a
non-serializable value. -/
def serializeJ : JVal → Option String
  | .null => some "null"
  | .bool true => some "true"
  | .bool false => some "false"
  | .num n => some (toString n)
  | .str s => some (jStr s)
  | .arr xs =>
    match serializeArr xs with
    | some parts => some ("[" ++ String.intercalate "," parts ++ "]")
    | none => none
  | .obj fs =>
    match serializeObj fs with
    | some parts => some ("\x7b" ++ String.intercalate "," parts ++ "\x7d")
    | none => none
  | .raw _ => none

def serializeArr : List JVal → Option (List String)
  | [] => some []
  | x :: xs =>
    match serializeJ x, serializeArr xs with
    | some s, some ss => some (s :: ss)
    | _, _ => none

def serializeObj : List (String × JVal) → Option (List String)
  | [] => some []
  | kv :: fs =>
    match serializeJ kv.2, serializeObj fs with
    | some sv, some ss => some ((jStr kv.1 ++ ":" ++ sv) :: ss)
    | _, _ => none
end

/-- The payment-gateway client (`PaymeService`), with the HMAC primitive
abstracted as a keyed digest function. -/
structure PaymeService where
  merchant_id : String
  secret_key : String
  hmacHex : String → String → String

/-- Model of `PaymeService._generate_signature`: HMAC-SHA256 hex digest over the
compact JSON serialization; `none` models the raised `PaymeError` when the
payload cannot be serialized. -/
def PaymeService.generate_signature (svc : PaymeService) (data : JVal) : Option String :=
  (serializeJ data).map (svc.hmacHex svc.secret_key)

/-- Model of `data.copy(); data.pop('signature', None)` on a dict's binding list. -/
def removeSig (fs : List (String × JVal)) : List (String × JVal) :=
  fs.eraseP (fun kv => kv.1 == "signature")

/-- Model of `PaymeService.verify_webhook_signature`: recompute the signature over the
payload with the `signature` field removed and compare; every failure path
(falsy signature, non-dict payload, unserializable payload) returns `false`
because the whole body is wrapped in `except Exception: return False`. -/
def PaymeService.verify_webhook_signature (svc : PaymeService) (data : JVal) (signature : String) : Bool :=
  if signature = "" then false
  else
    match data with
    | .obj fs =>
      match svc.generate_signature (.obj (removeSig fs)) with
      | some expected => signature == expected
      | none => false
    | _ => false

/-- A Python exception escaping a source function uncaught. -/
inductive Exc where
  | keyError : Exc
  | attributeError : Exc
  | typeError : Exc
deriving DecidableEq, Repr

/-- Body of an HTTP reply as seen by `response.json()`. -/
inductive JsonBody where
  | invalid : String → JsonBody
  | parsed : List (String × JVal) → JsonBody

/-- One network interaction outcome of `requests.post` inside
`PaymeService._make_request`. -/
inductive NetOutcome where
  | timeout : NetOutcome
  | connError : NetOutcome
  | reqError : String → NetOutcome
  | reply : Int → String → JsonBody → NetOutcome

/-- The payload of a raised `PaymeAPIError`. -/
structure ApiErr where
  message : String
  error_code : Option JVal
  response_data : Option JVal

/-- Model of `data['method'] = method` (overwrite in place or append). -/
def assignKey (fs : List (String × JVal)) (k : String) (v : JVal) : List (String × JVal) :=
  if fs.any (fun kv => kv.1 == k) then
    fs.map (fun kv => if kv.1 == k then (k, v) else kv)
  else fs ++ [(k, v)]

/-- Model of `data.setdefault('params', {})`. -/
def setdefaultKey (fs : List (String × JVal)) (k : String) (v : JVal) : List (String × JVal) :=
  if fs.any (fun kv => kv.1 == k) then fs else fs ++ [(k, v)]

/-- The request body `_make_request` actually posts: the caller's dict with
`method` assigned and `params` defaulted. -/
def preparedRequest (method : String) (data : List (String × JVal)) : List (String × JVal) :=
  setdefaultKey (assignKey data "method" (.str method)) "params" (.obj [])

/-- The message of the error envelope branch:
`result['error'].get('message', 'Unknown Payme error')` under `str(e)`. -/
def envelopeMessage (efs : List (String × JVal)) : String :=
  match lookupField efs "message" with
  | some v => pyStr v
  | none => "Unknown Payme error"

/-- Model of `PaymeService._make_request`: every failure (timeout, connection error,
other request error, non-200 status, invalid JSON body, provider error
envelope, or any other exception) is normalized to a raised `PaymeAPIError`,
modelled as the `.error` case.  A malformed error envelope (non-dict
`result['error']`) raises `AttributeError`, which the final
`except Exception` wraps as `PaymeAPIError("Unexpected error: ...")`,
modelled with the fixed message `"Unexpected error"`. -/
def PaymeService.make_request (svc : PaymeService) (method : String)
    (data : List (String × JVal)) (net : NetOutcome) : Except ApiErr (List (String × JVal)) :=
  match svc.generate_signature (.obj (preparedRequest method data)) with
  | none => .error ⟨"Unexpected error", none, none⟩
  | some _ =>
    match net with
    | .timeout => .error ⟨"Request timeout", none, none⟩
    | .connError => .error ⟨"Connection error", none, none⟩
    | .reqError m => .error ⟨"Request failed: " ++ m, none, none⟩
    | .reply status text body =>
      if status ≠ 200 then
        .error ⟨"HTTP " ++ toString status, none,
          some (.obj [("status_code", .num status), ("text", .str text)])⟩
      else
        match body with
        | .invalid reason => .error ⟨"Invalid JSON response: " ++ reason, none, none⟩
        | .parsed fs =>
          match lookupField fs "error" with
          | some (.obj efs) =>
            .error ⟨envelopeMessage efs, lookupField efs "code", some (.obj fs)⟩
          | some _ => .error ⟨"Unexpected error", none, none⟩
          | none => .ok fs

/-- Result dict of `PaymeService.create_payment` (keys `success`,
`transaction_id`, `error`, `data`; absent keys are `none`). -/
structure SvcResult where
  success : Bool
  transaction_id : Option JVal := none
  error : Option String := none
  data : Option JVal := none

/-- The `data` dict built inside `PaymeService.create_payment` before
posting (`transaction_id = str(uuid.uuid4())` and
`current_time = int(time.time() * 1000)` are the `tid`/`now` inputs). -/
def create_payment_data (amount : Int) (order_id tid : String) (now : Int) : List (String × JVal) :=
  [("params", .obj
    [("id", .str tid),
     ("time", .num now),
     ("amount", .num (amount * 100)),
     ("account", .obj [("order_id", .str order_id)])])]

/-- The wire body of the outbound `CreateTransaction` call. -/
def create_payment_outbound (amount : Int) (order_id tid : String) (now : Int) : List (String × JVal) :=
  preparedRequest "CreateTransaction" (create_payment_data amount order_id tid now)

/-- Model of `PaymeService.create_payment`.  Validation failures and `PaymeAPIError`
are caught and returned as `success=False` dicts; but
`transaction['id']` on a truthy transaction value that is not a dict with an
`id` key raises `KeyError`/`TypeError` past the function, and a non-dict
`result['result']` value raises `AttributeError` past it. -/
def PaymeService.create_payment (svc : PaymeService) (amount : Int) (order_id : String)
    (tid : String) (now : Int) (net : NetOutcome) : Except Exc SvcResult :=
  if amount ≤ 0 then
    .ok { success := false, error := some "Amount must be greater than 0" }
  else if order_id = "" then
    .ok { success := false, error := some "Order ID is required" }
  else
    match svc.make_request "CreateTransaction" (create_payment_data amount order_id tid now) net with
    | .error e => .ok { success := false, error := some e.message, data := e.response_data }
    | .ok result =>
      match lookupField result "result" with
      | some (.obj rfs) =>
        (match lookupField rfs "transaction" with
         | some t =>
           if truthy t then
             match t with
             | .obj tfs =>
               (match lookupField tfs "id" with
                | some tv => .ok { success := true, transaction_id := some tv, data := some (.obj result) }
                | none => .error .keyError)
             | _ => .error .typeError
           else
             .ok { success := false, error := some "No transaction data received", data := some (.obj result) }
         | none =>
           .ok { success := false, error := some "No transaction data received", data := some (.obj result) })
      | some _ => .error .attributeError
      | none =>
        .ok { success := false, error := some "No transaction data received", data := some (.obj result) }

/-- Model of `PaymeService.check_transaction`, returning the literal Python dict it
builds (note: the success dict has a `state` key and no `status` key). -/
def PaymeService.check_transaction (svc : PaymeService) (tid : String)
    (net : NetOutcome) : Except Exc (List (String × JVal)) :=
  if tid = "" then
    .ok [("success", .bool false), ("error", .str "Transaction ID is required"), ("data", .null)]
  else
    match svc.make_request "CheckTransaction" [("params", .obj [("id", .str tid)])] net with
    | .error e =>
      .ok [("success", .bool false), ("error", .str e.message),
           ("data", e.response_data.getD .null)]
    | .ok result =>
      match lookupField result "result" with
      | some rd =>
        if truthy rd then
          match rd with
          | .obj rfs =>
            .ok [("success", .bool true),
                 ("create_time", (lookupField rfs "create_time").getD .null),
                 ("perform_time", (lookupField rfs "perform_time").getD .null),
                 ("cancel_time", (lookupField rfs "cancel_time").getD .null),
                 ("transaction", (lookupField rfs "transaction").getD .null),
                 ("state", (lookupField rfs "state").getD .null),
                 ("reason", (lookupField rfs "reason").getD .null),
                 ("data", .obj rfs)]
          | _ => .error .attributeError
        else
          .ok [("success", .bool false), ("error", .str "Transaction not found"),
               ("data", .obj result)]
      | none =>
        .ok [("success", .bool false), ("error", .str "Transaction not found"),
             ("data", .obj result)]

/-- Model of `PaymeService.cancel_transaction`, returning the literal dict it builds. -/
def PaymeService.cancel_transaction (svc : PaymeService) (tid : String) (reason : Int)
    (net : NetOutcome) : Except Exc (List (String × JVal)) :=
  if tid = "" then
    .ok [("success", .bool false), ("error", .str "Transaction ID is required"), ("data", .null)]
  else
    match svc.make_request "CancelTransaction"
        [("params", .obj [("id", .str tid), ("reason", .num reason)])] net with
    | .error e =>
      .ok [("success", .bool false), ("error", .str e.message),
           ("data", e.response_data.getD .null)]
    | .ok result =>
      match lookupField result "result" with
      | some cr =>
        if truthy cr then
          match cr with
          | .obj cfs =>
            .ok [("success", .bool true),
                 ("transaction", (lookupField cfs "transaction").getD .null),
                 ("cancel_time", (lookupField cfs "cancel_time").getD .null),
                 ("state", (lookupField cfs "state").getD .null),
                 ("data", .obj cfs)]
          | _ => .error .attributeError
        else
          .ok [("success", .bool false), ("error", .str "Cancel failed"), ("data", .obj result)]
      | none =>
        .ok [("success", .bool false), ("error", .str "Cancel failed"), ("data", .obj result)]

/-- A row of the `payment` table (`app/models/payment_model.py`). -/
structure Payment where
  id : String
  user_id : String
  amount : Int
  status : String := "PENDING"
  created_at : Int
  paid_at : Option Int := none
  payme_transaction_id : Option String := none
  payme_cheque_id : Option String := none
  tariff_id : Option Nat := none
  payment_method : String := "PAYME"
  payme_error_code : Option String := none
  payme_error_message : Option String := none
  updated_at : Option Int := none
  webhook_received_at : Option Int := none
deriving DecidableEq, Repr

/-- The subscription fields of a `user` row used by the payment flow. -/
structure UserAcct where
  id : String
  tariff_id : Option Nat := none
  tariff_expires_at : Option Int := none
  updated_at : Option Int := none
deriving DecidableEq, Repr

/-- A row of the `tariff` table; prices are modelled as exact rationals. -/
structure TariffRow where
  id : Nat
  name : String
  price : Rat
  duration_days : Int
  is_active : Bool := true
deriving DecidableEq, Repr

/-- The relational state the payment flow reads and writes. -/
structure DB where
  payments : List Payment
  users : List UserAcct
  tariffs : List TariffRow
deriving DecidableEq, Repr

/-- Replace the first element satisfying `pr` by its image under `f`
(the ORM pattern: fetch the first matching row, mutate it, commit). -/
def replaceFirstP (pr : α → Bool) (f : α → α) : List α → List α
  | [] => []
  | a :: as => if pr a then f a :: as else a :: replaceFirstP pr f as

/-- Model of `payment_crud.get_payment_by_payme_transaction`:
`select(Payment).where(payme_transaction_id == tid)` then `.first()`. -/
def get_payment_by_payme_transaction (db : DB) (tid : String) : Option Payment :=
  db.payments.find? (fun p => p.payme_transaction_id == some tid)

/-- The row mutation performed by `payment_crud.update_payment_from_webhook`
on the fetched payment: status is assigned unconditionally, and the
PAID/FAILED branches set their extra fields. -/
def webhookRowUpdate (now : Int) (status : String) (paid_at : Option Int)
    (cheque_id : Option String) (p : Payment) : Payment :=
  let p1 := { p with status := status, webhook_received_at := some now, updated_at := some now }
  if status = "PAID" then
    { p1 with paid_at := some (paid_at.getD now), payme_cheque_id := cheque_id }
  else if status = "FAILED" then
    { p1 with payme_error_code := some "WEBHOOK_FAILED",
              payme_error_message := some "Payment failed via webhook" }
  else p1

/-- Model of `payment_crud.update_payment_from_webhook`: look the payment up by the
gateway transaction id; if absent return `False` without touching anything;
otherwise overwrite the row (no check of the previous status). -/
def update_payment_from_webhook (db : DB) (now : Int) (tid status : String)
    (paid_at : Option Int := none) (cheque_id : Option String := none) : Bool × DB :=
  if db.payments.any (fun p => p.payme_transaction_id == some tid) then
    let ps := replaceFirstP (fun p => p.payme_transaction_id == some tid)
      (webhookRowUpdate now status paid_at cheque_id) db.payments
    (true, { db with payments := ps })
  else (false, db)

/-- Model of `payment_crud.activate_user_tariff`: unconditionally set the user's plan
and recompute the expiry from the current time. -/
def activate_user_tariff (db : DB) (now : Int) (user_id : String) (tariff_id : Nat) : Bool × DB :=
  match db.users.find? (fun u => u.id == user_id), db.tariffs.find? (fun t => t.id == tariff_id) with
  | some _, some t =>
    let us := replaceFirstP (fun u => u.id == user_id)
      (fun u => { u with tariff_id := some tariff_id,
                         tariff_expires_at := some (now + t.duration_days * 86400),
                         updated_at := some now }) db.users
    (true, { db with users := us })
  | _, _ => (false, db)

/-- Model of `payment_crud.mark_payment_failed` (`session.get(Payment, pid)` then set
FAILED and the error fields). -/
def mark_payment_failed (db : DB) (payment_id : String) (error_code error_message : Option String)
    (now : Int) : Bool × DB :=
  if db.payments.any (fun p => p.id == payment_id) then
    let ps := replaceFirstP (fun p => p.id == payment_id)
      (fun p => { p with status := "FAILED", payme_error_code := error_code,
                         payme_error_message := error_message, updated_at := some now })
      db.payments
    (true, { db with payments := ps })
  else (false, db)

/-- Model of `payment_crud.update_payment_with_payme_data`: attach the gateway ids. -/
def update_payment_with_payme_data (db : DB) (payment_id : String)
    (payme_transaction_id : String) (payme_cheque_id : Option String) (now : Int) : Bool × DB :=
  if db.payments.any (fun p => p.id == payment_id) then
    let ps := replaceFirstP (fun p => p.id == payment_id)
      (fun p => { p with payme_transaction_id := some payme_transaction_id,
                         payme_cheque_id := payme_cheque_id, updated_at := some now })
      db.payments
    (true, { db with payments := ps })
  else (false, db)

/-- The webhook event after signature verification and
`parse_webhook_data` (`receipts.pay` / `receipts.cancel` / anything else). -/
inductive ParsedWebhook where
  | payment_success : String → Option Int → Option String → ParsedWebhook
  | payment_cancelled : String → ParsedWebhook
  | unknown : String → ParsedWebhook

/-- HTTP-level outcome of the webhook endpoint. -/
inductive WebhookResp where
  | ok : WebhookResp
  | serverError : String → WebhookResp
deriving DecidableEq, Repr

/-- The dispatch section of `payme_router.payme_webhook` (after signature
verification and parsing): on `payment_success` update the row, then — with
no first-time check — re-read it and activate the tariff whenever the update
reported `True` and the row carries a tariff. -/
def payme_webhook (db : DB) (now : Int) (ev : ParsedWebhook) : WebhookResp × DB :=
  match ev with
  | .payment_success tid paid_at cheque_id =>
    let r := update_payment_from_webhook db now tid "PAID" paid_at cheque_id
    if r.1 then
      match get_payment_by_payme_transaction r.2 tid with
      | some p =>
        match p.tariff_id with
        | some tfid => (.ok, (activate_user_tariff r.2 now p.user_id tfid).2)
        | none => (.ok, r.2)
      | none => (.ok, r.2)
    else (.serverError "Failed to process webhook", r.2)
  | .payment_cancelled tid =>
    let r := update_payment_from_webhook db now tid "CANCELLED"
    if r.1 then (.ok, r.2) else (.serverError "Failed to process webhook", r.2)
  | .unknown _ => (.ok, db)

/-- HTTP-level outcome of `payme_router.create_payment`. -/
inductive CreateResp where
  | httpError : Int → String → CreateResp
  | payResponse : Bool → Option JVal → Option String → CreateResp

/-- The downgrade denial detail; `strftime` of the expiry is modelled as
`toString` of the abstract instant. -/
def downgradeDetail (cur_exp : Int) : String :=
  "You cannot downgrade to a cheaper tariff until your current tariff expires. Current tariff expires at: "
    ++ toString cur_exp

/-- The fresh PENDING row `payment_crud.create_payme_payment` inserts. -/
def newPaymePayment (payment_id user_id : String) (amount : Int) (tariff_id : Nat)
    (now : Int) : Payment :=
  { id := payment_id, user_id := user_id, amount := amount, status := "PENDING",
    created_at := now, tariff_id := some tariff_id, payment_method := "PAYME" }

/-- The active-plan upgrade gate of `payme_router.create_payment` (lines
58–72): while the current plan is unexpired, a target tariff that is not
strictly more expensive is denied with the current expiry in the detail; a
dangling current tariff id is an `AttributeError` answered as HTTP 500. -/
def upgradeGate (db : DB) (now : Int) (current_user : UserAcct) (tariff : TariffRow) : Option CreateResp :=
  match current_user.tariff_id, current_user.tariff_expires_at with
  | some cur_id, some cur_exp =>
    if now < cur_exp then
      match db.tariffs.find? (fun t => t.id == cur_id) with
      | some cur =>
        if tariff.price ≤ cur.price then some (.httpError 400 (downgradeDetail cur_exp))
        else none
      | none => some (.httpError 500 "Internal server error")
    else none
  | _, _ => none

/-- Model of `payme_router.create_payment`: tariff existence/activity/price checks,
the active-plan upgrade gate, then insert the PENDING row, call the gateway
and reconcile.  `current_user` is the authenticated account; the row is
created for `payment_data.user_id` as in the source.  `new_payment_id`,
`gw_tid` and `gw_now` stand for the generated UUIDs / clock reads. -/
def create_payment_route (db : DB) (now : Int) (current_user : UserAcct)
    (tariff_id : Nat) (amount : Int) (req_user_id : String) (new_payment_id : String)
    (svc : PaymeService) (gw_tid : String) (gw_now : Int) (net : NetOutcome) : CreateResp × DB :=
  match db.tariffs.find? (fun t => t.id == tariff_id) with
  | none => (.httpError 404 "Tariff not found", db)
  | some tariff =>
    if !tariff.is_active then
      (.httpError 400 "This tariff is not available for purchase", db)
    else if amount ≠ tariff.price.floor then
      (.httpError 400 ("Amount " ++ toString amount ++ " does not match tariff price "
        ++ toString tariff.price.floor), db)
    else
      match upgradeGate db now current_user tariff with
      | some resp => (resp, db)
      | none =>
        let payment := newPaymePayment new_payment_id req_user_id amount tariff_id now
        let db1 : DB := { db with payments := db.payments ++ [payment] }
        match svc.create_payment amount new_payment_id gw_tid gw_now net with
        | .error _ => (.httpError 500 "Internal server error", db1)
        | .ok r =>
          if r.success then
            let db2 := (update_payment_with_payme_data db1 new_payment_id
              (pyStr (r.transaction_id.getD .null)) none now).2
            (.payResponse true r.transaction_id none, db2)
          else
            let db2 := (mark_payment_failed db1 new_payment_id
              (some "PAYME_CREATE_FAILED") (some (r.error.getD "Unknown error")) now).2
            (.payResponse false none (some (r.error.getD "Failed to create payment")), db2)

/-- HTTP-level outcome of `payme_router.check_transaction_status`. -/
inductive StatusResp where
  | httpError : Int → String → StatusResp
  | statusOk : JVal → Option JVal → Option JVal → Option JVal → StatusResp
  | statusFail : String → Option JVal → StatusResp

/-- Model of `payme_router.check_transaction_status`: validate the id, require a local
row, query the gateway, then build the success response from
`payme_result['status']` — a key `check_transaction` never produces — so a
`KeyError` is raised and the generic handler answers HTTP 500. -/
def check_transaction_status_route (db : DB) (tid : String) (svc : PaymeService)
    (net : NetOutcome) : StatusResp :=
  if tid.length < 10 then .httpError 400 "Invalid transaction ID format"
  else
    match get_payment_by_payme_transaction db tid with
    | none => .httpError 404 "Transaction not found in our system"
    | some _ =>
      match svc.check_transaction tid net with
      | .error _ => .httpError 500 "Internal server error"
      | .ok r =>
        match lookupField r "success" with
        | none => .httpError 500 "Internal server error"
        | some sv =>
          if truthy sv then
            match lookupField r "status" with
            | some st =>
              .statusOk st (lookupField r "amount") (lookupField r "paid_at") (lookupField r "data")
            | none => .httpError 500 "Internal server error"
          else
            let err := match lookupField r "error" with
              | some v => pyStr v
              | none => "Unknown error"
            .statusFail err (lookupField r "data")

/-- A row of the `review` table (`app/models/interaction_models.py`);
float ratings are modelled as exact rationals. -/
structure ReviewRow where
  id : Nat
  card_id : Nat
  user_id : Nat
  rating : Rat
  comment : Option String := none
deriving DecidableEq, Repr

/-- The rating fields of a `card` row touched by the review paths. -/
structure CardRow where
  id : Nat
  rating : Rat := 0
  rating_count : Nat := 0
deriving DecidableEq, Repr

/-- State read and written by `InteractionCRUD`'s review operations;
`next_id` models the autoincrement primary key. -/
structure ReviewState where
  cards : List CardRow
  users : List Nat
  reviews : List ReviewRow
  next_id : Nat := 1
deriving DecidableEq, Repr

/-- Model of `len(set(r.user_id for r in reviews))`: distinct reviewing users. -/
def distinctUserCount (rs : List ReviewRow) (cid : Nat) : Nat :=
  ((rs.filter (fun r => r.card_id == cid)).map (fun r => r.user_id)).dedup.length

/-- Model of `len(reviews)` restricted to one card: total review count. -/
def totalReviewCount (rs : List ReviewRow) (cid : Nat) : Nat :=
  (rs.filter (fun r => r.card_id == cid)).length

/-- Sum of ratings of one card's reviews. -/
def totalRating (rs : List ReviewRow) (cid : Nat) : Rat :=
  ((rs.filter (fun r => r.card_id == cid)).map (fun r => r.rating)).sum

/-- Model of `InteractionCRUD.create_review`: validations, duplicate-reviewer
rejection, insert, then recompute `card.rating` as sum ÷ total count and
`card.rating_count` as the distinct-user count.  `none` models a raised
`HTTPException` (no commit). -/
def create_review (s : ReviewState) (card_id user_id : Nat) (rating : Rat)
    (comment : Option String) : Option ReviewState :=
  if card_id = 0 then none
  else if !(s.cards.any (fun c => c.id == card_id)) then none
  else if user_id = 0 then none
  else if !(s.users.contains user_id) then none
  else if rating < 1 ∨ 5 < rating then none
  else if 1000 < (comment.map String.length).getD 0 then none
  else if s.reviews.any (fun r => r.card_id == card_id && r.user_id == user_id) then none
  else
    let rv : ReviewRow := { id := s.next_id, card_id := card_id, user_id := user_id,
                            rating := rating, comment := comment }
    let reviews' := s.reviews ++ [rv]
    let cards' := replaceFirstP (fun c => c.id == card_id)
      (fun c => { c with rating := totalRating reviews' card_id / (totalReviewCount reviews' card_id : Rat),
                         rating_count := distinctUserCount reviews' card_id }) s.cards
    some { s with reviews := reviews', cards := cards', next_id := s.next_id + 1 }

/-- Model of `InteractionCRUD.update_review`: owner check, apply the optional new
rating/comment to the row, then recompute the card's aggregates with the
same distinct-user count formula as `create_review`. -/
def update_review (s : ReviewState) (review_id user_id : Nat) (rating : Option Rat)
    (comment : Option String) : Option ReviewState :=
  if review_id = 0 then none
  else
    match s.reviews.find? (fun r => r.id == review_id) with
    | none => none
    | some rv =>
      if user_id = 0 then none
      else if !(s.users.contains user_id) then none
      else if rv.user_id ≠ user_id then none
      else if (match rating with | some q => decide (q < 1 ∨ 5 < q) | none => false) then none
      else if 1000 < ((comment.map String.length).getD 0) then none
      else if !(s.cards.any (fun c => c.id == rv.card_id)) then none
      else
        let rv' : ReviewRow := { rv with rating := rating.getD rv.rating,
                                         comment := comment <|> rv.comment }
        let reviews' := replaceFirstP (fun r => r.id == review_id) (fun _ => rv') s.reviews
        let cards' := replaceFirstP (fun c => c.id == rv.card_id)
          (fun c => { c with
            rating := totalRating reviews' rv.card_id / (totalReviewCount reviews' rv.card_id : Rat),
            rating_count := distinctUserCount reviews' rv.card_id }) s.cards
        some { s with reviews := reviews', cards := cards' }

/-- Model of `InteractionCRUD.delete_review`: owner check, delete the row, then set
`card.rating_count` to the TOTAL number of remaining reviews (unlike the
create/update paths) and `card.rating` to sum ÷ total, or zero both when no
review remains. -/
def delete_review (s : ReviewState) (review_id user_id : Nat) : Option ReviewState :=
  if review_id = 0 then none
  else
    match s.reviews.find? (fun r => r.id == review_id) with
    | none => none
    | some rv =>
      if user_id = 0 then none
      else if !(s.users.contains user_id) then none
      else if rv.user_id ≠ user_id then none
      else if !(s.cards.any (fun c => c.id == rv.card_id)) then none
      else
        let reviews' := s.reviews.eraseP (fun r => r.id == review_id)
        let cards' := replaceFirstP (fun c => c.id == rv.card_id)
          (fun c =>
            if totalReviewCount reviews' rv.card_id = 0 then
              { c with rating := 0, rating_count := 0 }
            else
              { c with
                rating := totalRating reviews' rv.card_id / (totalReviewCount reviews' rv.card_id : Rat),
                rating_count := totalReviewCount reviews' rv.card_id }) s.cards
        some { s with reviews := reviews', cards := cards' }

/-- One review operation issued through the API. -/
inductive ReviewOp where
  | create : Nat → Nat → Rat → Option String → ReviewOp
  | update : Nat → Nat → Option Rat → Option String → ReviewOp
  | delete : Nat → Nat → ReviewOp

/-- Apply one operation; a raised `HTTPException` leaves the state as is. -/
def applyReviewOp (s : ReviewState) (op : ReviewOp) : ReviewState :=
  match op with
  | .create cid uid q c => (create_review s cid uid q c).getD s
  | .update rid uid q c => (update_review s rid uid q c).getD s
  | .delete rid uid => (delete_review s rid uid).getD s

/-- Run a sequence of review operations. -/
def runReviewOps (s : ReviewState) (ops : List ReviewOp) : ReviewState :=
  ops.foldl applyReviewOp s

/-- A catalog-only initial state: cards and users exist, no review yet. -/
def initReviewState (cards : List CardRow) (users : List Nat) : ReviewState :=
  { cards := cards, users := users, reviews := [], next_id := 1 }

/-- Claim C9's existential, verbatim: some reachable review table makes the
two `rating_count` definitions (distinct reviewing users vs. total reviews)
disagree for some card. -/
def reviewCountsDisagreeReachable : Prop :=
  ∃ (cards : List CardRow) (users : List Nat) (ops : List ReviewOp) (cid : Nat),
    distinctUserCount (runReviewOps (initReviewState cards users) ops).reviews cid
      ≠ totalReviewCount (runReviewOps (initReviewState cards users) ops).reviews cid

/-- The failure modes claim C4 enumerates (timeout, connection failure,
other request error, non-2xx, invalid JSON, provider error envelope) with
the message `_make_request` attaches to each; `none` means the outcome is
not one of them. -/
def gatewayFailureMsg : NetOutcome → Option String
  | .timeout => some "Request timeout"
  | .connError => some "Connection error"
  | .reqError m => some ("Request failed: " ++ m)
  | .reply status _ body =>
    if status ≠ 200 then some ("HTTP " ++ toString status)
    else
      match body with
      | .invalid reason => some ("Invalid JSON response: " ++ reason)
      | .parsed fs =>
        match lookupField fs "error" with
        | some (.obj efs) => some (envelopeMessage efs)
        | some _ => some "Unexpected error"
        | none => none

/-- The `response_data` attached to each of those failures (carrying the
provider error envelope, and hence the provider error code, when there is
one). -/
def gatewayFailureData : NetOutcome → Option JVal
  | .reply status text body =>
    if status ≠ 200 then
      some (.obj [("status_code", .num status), ("text", .str text)])
    else
      match body with
      | .parsed fs =>
        (match lookupField fs "error" with
         | some (.obj _) => some (.obj fs)
         | _ => none)
      | .invalid _ => none
  | _ => none

/-- A concrete service value for witnesses: the abstract digest is the
identity on the message, which is injective. -/
def svcId : PaymeService := { merchant_id := "m1", secret_key := "sk", hmacHex := fun _ m => m }

/-- Concrete fixture: one PENDING Payme payment for tariff 7, its owner and
the tariff, as produced by a purchase initiation. -/
def wPayment : Payment :=
  { id := "pay-1", user_id := "user-1", amount := 50000, created_at := 0,
    tariff_id := some 7, payme_transaction_id := some "tx-1234567890" }

def wUser : UserAcct := { id := "user-1" }

def wTariff : TariffRow := { id := 7, name := "Tariff A", price := 50000, duration_days := 30 }

def wDB : DB := { payments := [wPayment], users := [wUser], tariffs := [wTariff] }

/-- The dict `check_transaction` builds for a successful remote query whose
`result` is `{"state": 4}`. -/
def wCheckDict : List (String × JVal) :=
  [("success", .bool true), ("create_time", .null), ("perform_time", .null),
   ("cancel_time", .null), ("transaction", .null), ("state", .num 4),
   ("reason", .null), ("data", .obj [("state", .num 4)])]

/-- The provider error code attached to each enumerated gateway failure
(present exactly when the failure is an error envelope carrying `code`). -/
def gatewayFailureCode : NetOutcome → Option JVal
  | .reply status _ body =>
    if status ≠ 200 then none
    else
      match body with
      | .parsed fs =>
        (match lookupField fs "error" with
         | some (.obj efs) => lookupField efs "code"
         | _ => none)
      | .invalid _ => none
  | _ => none

/-- The concrete provider error envelope reply used by the C4 witness. -/
def wEnvNet : NetOutcome :=
  .reply 200 "" (.parsed [("error", .obj [("code", .num (-31003)), ("message", .str "Order not found")])])

def wTariffB : TariffRow := { id := 8, name := "Tariff B", price := 100000, duration_days := 30 }

def wUserActive : UserAcct := { id := "user-1", tariff_id := some 8, tariff_expires_at := some 1000 }

def wDB2 : DB := { payments := [], users := [wUserActive], tariffs := [wTariff, wTariffB] }

/-- The reviewing users of one card, in table order. -/
def usersOfCard (rs : List ReviewRow) (cid : Nat) : List Nat :=
  (rs.filter (fun r => r.card_id == cid)).map (fun r => r.user_id)

/-- The reachability invariant of the review table: every card's reviewers
are pairwise distinct (enforced by `create_review`'s duplicate check). -/
def ReviewInv (s : ReviewState) : Prop :=
  ∀ cid, (usersOfCard s.reviews cid).Nodup

theorem any_eq_true_of_find? {α} {p : α → Bool} {l : List α} {a : α}
    (h : l.find? p = some a) : l.any p = true :=
  List.any_eq_true.mpr ⟨a, List.mem_of_find?_eq_some h, List.find?_some h⟩

theorem any_eq_false_of_find?_none {α} {p : α → Bool} {l : List α}
    (h : l.find? p = none) : l.any p = false := by
  rw [List.any_eq_false]
  intro x hx
  simpa using List.find?_eq_none.mp h x hx

theorem replaceFirstP_find?_eq {α} (pr : α → Bool) (f : α → α) (l : List α) (a : α)
    (h : l.find? pr = some a) (hf : pr (f a) = true) :
    (replaceFirstP pr f l).find? pr = some (f a) := by
  induction l with
  | nil => simp at h
  | cons b bs ih =>
    by_cases hb : pr b
    · rw [List.find?_cons_of_pos _ hb] at h
      injection h with h
      subst h
      simp [replaceFirstP, hb, List.find?_cons_of_pos _ hf]
    · rw [List.find?_cons_of_neg _ hb] at h
      simp only [replaceFirstP, hb]
      rw [if_neg (by simp [hb]), List.find?_cons_of_neg _ hb]
      exact ih h

theorem replaceFirstP_any {α} (pr q : α → Bool) (f : α → α)
    (hf : ∀ a, q (f a) = q a) (l : List α) :
    (replaceFirstP pr f l).any q = l.any q := by
  induction l with
  | nil => rfl
  | cons b bs ih =>
    by_cases hb : pr b
    · simp [replaceFirstP, hb, hf]
    · simp [replaceFirstP, hb, ih]

theorem webhookRowUpdate_txid (now : Int) (st : String) (pa : Option Int)
    (cq : Option String) (p : Payment) :
    (webhookRowUpdate now st pa cq p).payme_transaction_id = p.payme_transaction_id := by
  simp only [webhookRowUpdate]
  split
  · rfl
  · split <;> rfl

theorem webhookRowUpdate_status (now : Int) (st : String) (pa : Option Int)
    (cq : Option String) (p : Payment) :
    (webhookRowUpdate now st pa cq p).status = st := by
  simp only [webhookRowUpdate]
  split
  · rfl
  · split <;> rfl

theorem webhookRowUpdate_paid_fields (now : Int) (pa : Option Int)
    (cq : Option String) (p : Payment) :
    (webhookRowUpdate now "PAID" pa cq p).paid_at = some (pa.getD now)
    ∧ (webhookRowUpdate now "PAID" pa cq p).tariff_id = p.tariff_id
    ∧ (webhookRowUpdate now "PAID" pa cq p).user_id = p.user_id := by
  simp [webhookRowUpdate]

theorem update_payment_from_webhook_found (db : DB) (now : Int) (tid st : String)
    (pa : Option Int) (cq : Option String) (p : Payment)
    (h : db.payments.find? (fun q => q.payme_transaction_id == some tid) = some p) :
    update_payment_from_webhook db now tid st pa cq =
      (true, { db with payments := (replaceFirstP (fun q => q.payme_transaction_id == some tid)
          (webhookRowUpdate now st pa cq) db.payments) }) := by
  unfold update_payment_from_webhook
  rw [any_eq_true_of_find? h]
  rfl

theorem update_payment_from_webhook_none (db : DB) (now : Int) (tid st : String)
    (pa : Option Int) (cq : Option String)
    (h : db.payments.find? (fun q => q.payme_transaction_id == some tid) = none) :
    update_payment_from_webhook db now tid st pa cq = (false, db) := by
  unfold update_payment_from_webhook
  rw [any_eq_false_of_find?_none h]
  rfl

theorem find?_after_webhook_update (l : List Payment) (now : Int) (tid st : String)
    (pa : Option Int) (cq : Option String) (p : Payment)
    (h : l.find? (fun q => q.payme_transaction_id == some tid) = some p) :
    (replaceFirstP (fun q => q.payme_transaction_id == some tid)
        (webhookRowUpdate now st pa cq) l).find?
        (fun q => q.payme_transaction_id == some tid)
      = some (webhookRowUpdate now st pa cq p) := by
  apply replaceFirstP_find?_eq _ _ _ _ h
  have hp := List.find?_some h
  simpa [webhookRowUpdate_txid] using hp

theorem activate_user_tariff_found (db : DB) (now : Int) (uid : String) (tfid : Nat)
    (u : UserAcct) (t : TariffRow)
    (hu : db.users.find? (fun v => v.id == uid) = some u)
    (ht : db.tariffs.find? (fun r => r.id == tfid) = some t) :
    activate_user_tariff db now uid tfid =
      (true, { db with users := (replaceFirstP (fun v => v.id == uid)
          (fun v => { v with tariff_id := some tfid,
                             tariff_expires_at := some (now + t.duration_days * 86400),
                             updated_at := some now }) db.users) }) := by
  unfold activate_user_tariff
  rw [hu, ht]

theorem find?_after_activate (l : List UserAcct) (now : Int) (uid : String) (tfid : Nat)
    (u : UserAcct) (t : TariffRow)
    (hu : l.find? (fun v => v.id == uid) = some u) :
    (replaceFirstP (fun v => v.id == uid)
        (fun v => { v with tariff_id := some tfid,
                           tariff_expires_at := some (now + t.duration_days * 86400),
                           updated_at := some now }) l).find? (fun v => v.id == uid)
      = some { u with tariff_id := some tfid,
                      tariff_expires_at := some (now + t.duration_days * 86400),
                      updated_at := some now } := by
  apply replaceFirstP_find?_eq _ _ _ _ hu
  simpa using List.find?_some hu

theorem update_payment_from_webhook_users (db : DB) (now : Int) (tid st : String)
    (pa : Option Int) (cq : Option String) :
    (update_payment_from_webhook db now tid st pa cq).2.users = db.users := by
  unfold update_payment_from_webhook
  split <;> rfl

theorem update_payment_from_webhook_tariffs (db : DB) (now : Int) (tid st : String)
    (pa : Option Int) (cq : Option String) :
    (update_payment_from_webhook db now tid st pa cq).2.tariffs = db.tariffs := by
  unfold update_payment_from_webhook
  split <;> rfl

theorem activate_user_tariff_payments (db : DB) (now : Int) (uid : String) (tfid : Nat) :
    (activate_user_tariff db now uid tfid).2.payments = db.payments := by
  unfold activate_user_tariff
  split <;> rfl

theorem activate_user_tariff_tariffs (db : DB) (now : Int) (uid : String) (tfid : Nat) :
    (activate_user_tariff db now uid tfid).2.tariffs = db.tariffs := by
  unfold activate_user_tariff
  split <;> rfl

/-- One `receipts.pay` webhook delivery on a known transaction whose payment
carries a tariff: the handler always answers ok, rewrites the payment row
and re-runs activation, regardless of the payment's previous status. -/
theorem payme_webhook_paid_step (db : DB) (tid : String) (p : Payment) (tfid : Nat)
    (u : UserAcct) (t : TariffRow) (now : Int) (pa : Option Int) (cq : Option String)
    (hp : db.payments.find? (fun q => q.payme_transaction_id == some tid) = some p)
    (htar : p.tariff_id = some tfid)
    (hu : db.users.find? (fun v => v.id == p.user_id) = some u)
    (ht : db.tariffs.find? (fun r => r.id == tfid) = some t) :
    payme_webhook db now (.payment_success tid pa cq) =
      (.ok, { payments := (replaceFirstP (fun q => q.payme_transaction_id == some tid)
                (webhookRowUpdate now "PAID" pa cq) db.payments),
              users := (replaceFirstP (fun v => v.id == p.user_id)
                (fun v => { v with tariff_id := some tfid,
                                   tariff_expires_at := some (now + t.duration_days * 86400),
                                   updated_at := some now }) db.users),
              tariffs := db.tariffs }) := by
  have hupd := update_payment_from_webhook_found db now tid "PAID" pa cq p hp
  have hfind := find?_after_webhook_update db.payments now tid "PAID" pa cq p hp
  have hfields := webhookRowUpdate_paid_fields now pa cq p
  unfold payme_webhook
  dsimp only
  rw [hupd]
  dsimp only [get_payment_by_payme_transaction]
  rw [if_pos rfl, hfind]
  dsimp only
  rw [hfields.2.1, htar]
  dsimp only
  rw [hfields.2.2]
  rw [activate_user_tariff_found
    { payments := (replaceFirstP (fun q => q.payme_transaction_id == some tid)
        (webhookRowUpdate now "PAID" pa cq) db.payments),
      users := db.users, tariffs := db.tariffs }
    now p.user_id tfid u t hu ht]

/-- C1 (amended): processing the `PaymentSucceeded` webhook twice for the
same external transaction id is NOT a no-op.  `update_payment_from_webhook`
has no state guard, so each delivery overwrites `paid_at` with that
delivery's payload time (or processing time when absent), and the router
re-runs `activate_user_tariff` on every delivery, recomputing the owner's
`tariff_expires_at` from that delivery's clock — the second delivery's
values replace the first's. -/
theorem transitionToPaid_not_idempotent (db : DB) (tid : String) (p : Payment) (tfid : Nat)
    (u : UserAcct) (t : TariffRow) (now1 now2 : Int) (pa1 pa2 : Option Int)
    (cq1 cq2 : Option String)
    (hp : db.payments.find? (fun q => q.payme_transaction_id == some tid) = some p)
    (htar : p.tariff_id = some tfid)
    (hu : db.users.find? (fun v => v.id == p.user_id) = some u)
    (ht : db.tariffs.find? (fun r => r.id == tfid) = some t) :
    ((payme_webhook db now1 (.payment_success tid pa1 cq1)).1 = .ok)
    ∧ ((get_payment_by_payme_transaction (payme_webhook db now1 (.payment_success tid pa1 cq1)).2 tid).map
        Payment.paid_at = some (some (pa1.getD now1)))
    ∧ (((payme_webhook db now1 (.payment_success tid pa1 cq1)).2.users.find?
        (fun v => v.id == p.user_id)).map UserAcct.tariff_expires_at
        = some (some (now1 + t.duration_days * 86400)))
    ∧ ((payme_webhook (payme_webhook db now1 (.payment_success tid pa1 cq1)).2 now2
        (.payment_success tid pa2 cq2)).1 = .ok)
    ∧ ((get_payment_by_payme_transaction
        (payme_webhook (payme_webhook db now1 (.payment_success tid pa1 cq1)).2 now2
          (.payment_success tid pa2 cq2)).2 tid).map Payment.paid_at
        = some (some (pa2.getD now2)))
    ∧ (((payme_webhook (payme_webhook db now1 (.payment_success tid pa1 cq1)).2 now2
        (.payment_success tid pa2 cq2)).2.users.find? (fun v => v.id == p.user_id)).map
        UserAcct.tariff_expires_at = some (some (now2 + t.duration_days * 86400))) := by
  have hf1 := webhookRowUpdate_paid_fields now1 pa1 cq1 p
  have h1 := payme_webhook_paid_step db tid p tfid u t now1 pa1 cq1 hp htar hu ht
  have hp1 := find?_after_webhook_update db.payments now1 tid "PAID" pa1 cq1 p hp
  have hu1 := find?_after_activate db.users now1 p.user_id tfid u t hu
  have htar1 : (webhookRowUpdate now1 "PAID" pa1 cq1 p).tariff_id = some tfid := by
    rw [hf1.2.1, htar]
  have hu1' : ((replaceFirstP (fun v => v.id == p.user_id)
      (fun v => { v with tariff_id := some tfid,
                         tariff_expires_at := some (now1 + t.duration_days * 86400),
                         updated_at := some now1 }) db.users).find?
      (fun v => v.id == (webhookRowUpdate now1 "PAID" pa1 cq1 p).user_id))
      = some { u with tariff_id := some tfid,
                      tariff_expires_at := some (now1 + t.duration_days * 86400),
                      updated_at := some now1 } := by
    simp only [hf1.2.2]
    exact hu1
  have h2 := payme_webhook_paid_step
    { payments := (replaceFirstP (fun q => q.payme_transaction_id == some tid)
        (webhookRowUpdate now1 "PAID" pa1 cq1) db.payments),
      users := (replaceFirstP (fun v => v.id == p.user_id)
        (fun v => { v with tariff_id := some tfid,
                           tariff_expires_at := some (now1 + t.duration_days * 86400),
                           updated_at := some now1 }) db.users),
      tariffs := db.tariffs }
    tid (webhookRowUpdate now1 "PAID" pa1 cq1 p) tfid
    { u with tariff_id := some tfid,
             tariff_expires_at := some (now1 + t.duration_days * 86400),
             updated_at := some now1 }
    t now2 pa2 cq2 hp1 htar1 hu1' ht
  have hf2 := webhookRowUpdate_paid_fields now2 pa2 cq2 (webhookRowUpdate now1 "PAID" pa1 cq1 p)
  have hp2 := find?_after_webhook_update
    (replaceFirstP (fun q => q.payme_transaction_id == some tid)
      (webhookRowUpdate now1 "PAID" pa1 cq1) db.payments)
    now2 tid "PAID" pa2 cq2 (webhookRowUpdate now1 "PAID" pa1 cq1 p) hp1
  have hu2 := find?_after_activate
    (replaceFirstP (fun v => v.id == p.user_id)
      (fun v => { v with tariff_id := some tfid,
                         tariff_expires_at := some (now1 + t.duration_days * 86400),
                         updated_at := some now1 }) db.users)
    now2 p.user_id tfid
    { u with tariff_id := some tfid,
             tariff_expires_at := some (now1 + t.duration_days * 86400),
             updated_at := some now1 }
    t hu1
  refine ⟨by rw [h1], ?_, ?_, ?_, ?_, ?_⟩
  · rw [h1]
    dsimp only [get_payment_by_payme_transaction]
    rw [hp1]
    simp [hf1.1]
  · rw [h1]
    dsimp only
    rw [hu1]
    rfl
  · rw [h1]
    dsimp only
    rw [h2]
  · rw [h1]
    dsimp only
    rw [h2]
    dsimp only [get_payment_by_payme_transaction]
    rw [hp2]
    simp [hf2.1]
  · rw [h1]
    dsimp only
    rw [h2]
    dsimp only
    simp only [hf1.2.2]
    rw [hu2]
    rfl

/-- C1 witness: the amended theorem at the concrete fixture (two deliveries
at times 100 and 200, first carrying `paid_at = 50`, second carrying none). -/
theorem transitionToPaid_not_idempotent_witness :
    (wDB.payments.find? (fun q => q.payme_transaction_id == some "tx-1234567890") = some wPayment)
    ∧ (wPayment.tariff_id = some 7)
    ∧ (wDB.users.find? (fun v => v.id == wPayment.user_id) = some wUser)
    ∧ (wDB.tariffs.find? (fun r => r.id == 7) = some wTariff)
    ∧ (((payme_webhook wDB 100 (.payment_success "tx-1234567890" (some 50) none)).1 = .ok)
      ∧ ((get_payment_by_payme_transaction
            (payme_webhook wDB 100 (.payment_success "tx-1234567890" (some 50) none)).2
            "tx-1234567890").map Payment.paid_at = some (some ((some (50 : Int)).getD 100)))
      ∧ (((payme_webhook wDB 100 (.payment_success "tx-1234567890" (some 50) none)).2.users.find?
            (fun v => v.id == wPayment.user_id)).map UserAcct.tariff_expires_at
            = some (some (100 + wTariff.duration_days * 86400)))
      ∧ ((payme_webhook (payme_webhook wDB 100 (.payment_success "tx-1234567890" (some 50) none)).2
            200 (.payment_success "tx-1234567890" none none)).1 = .ok)
      ∧ ((get_payment_by_payme_transaction
            (payme_webhook (payme_webhook wDB 100 (.payment_success "tx-1234567890" (some 50) none)).2
              200 (.payment_success "tx-1234567890" none none)).2 "tx-1234567890").map
            Payment.paid_at = some (some ((none : Option Int).getD 200)))
      ∧ (((payme_webhook (payme_webhook wDB 100 (.payment_success "tx-1234567890" (some 50) none)).2
            200 (.payment_success "tx-1234567890" none none)).2.users.find?
            (fun v => v.id == wPayment.user_id)).map UserAcct.tariff_expires_at
            = some (some (200 + wTariff.duration_days * 86400)))) := by
  have h1 : wDB.payments.find? (fun q => q.payme_transaction_id == some "tx-1234567890") = some wPayment := by rfl
  have h2 : wPayment.tariff_id = some 7 := by rfl
  have h3 : wDB.users.find? (fun v => v.id == wPayment.user_id) = some wUser := by rfl
  have h4 : wDB.tariffs.find? (fun r => r.id == 7) = some wTariff := by rfl
  exact ⟨h1, h2, h3, h4,
    transitionToPaid_not_idempotent wDB "tx-1234567890" wPayment 7 wUser wTariff
      100 200 (some 50) none none none h1 h2 h3 h4⟩

/-- C1 counterexample: simulating duplicate webhook delivery of the same
`receipts.pay` event, the first delivery stores `paid_at = 50` and expiry
`2592100`; the second delivery overwrites them with `paid_at = 200` and
expiry `2592200` — so there is NOT exactly one `paid_at` value and the
expiry is extended twice, refuting the claimed idempotence. -/
theorem transitionToPaid_idempotence_counterexample :
    let r1 := payme_webhook wDB 100 (.payment_success "tx-1234567890" (some 50) none)
    let r2 := payme_webhook r1.2 200 (.payment_success "tx-1234567890" none none)
    ((get_payment_by_payme_transaction r1.2 "tx-1234567890").map Payment.paid_at = some (some 50))
    ∧ ((get_payment_by_payme_transaction r2.2 "tx-1234567890").map Payment.paid_at = some (some 200))
    ∧ ((r1.2.users.find? (fun v => v.id == "user-1")).map UserAcct.tariff_expires_at
        = some (some 2592100))
    ∧ ((r2.2.users.find? (fun v => v.id == "user-1")).map UserAcct.tariff_expires_at
        = some (some 2592200))
    ∧ (r2.1 = .ok) := by
  exact ⟨rfl, rfl, rfl, rfl, rfl⟩

/-- C2 (amended): `update_payment_from_webhook` has no terminal-state guard:
whenever the transaction id is known, the incoming status is written
unconditionally, whatever the previous status was — so of two conflicting
webhook deliveries the LAST one wins, not the first. -/
theorem update_payment_from_webhook_no_state_guard (db : DB) (now : Int) (tid st : String)
    (pa : Option Int) (cq : Option String) (p : Payment)
    (hp : db.payments.find? (fun q => q.payme_transaction_id == some tid) = some p) :
    ((update_payment_from_webhook db now tid st pa cq).1 = true)
    ∧ ((get_payment_by_payme_transaction (update_payment_from_webhook db now tid st pa cq).2 tid).map
        Payment.status = some st) := by
  have h := update_payment_from_webhook_found db now tid st pa cq p hp
  refine ⟨by rw [h], ?_⟩
  rw [h]
  dsimp only [get_payment_by_payme_transaction]
  rw [find?_after_webhook_update db.payments now tid st pa cq p hp]
  simp [webhookRowUpdate_status]

/-- C2 witness: on the fixture's PENDING payment, a `CANCELLED` write is
applied unconditionally and the stored status becomes `CANCELLED`. -/
theorem update_payment_from_webhook_no_state_guard_witness :
    (wDB.payments.find? (fun q => q.payme_transaction_id == some "tx-1234567890") = some wPayment)
    ∧ ((update_payment_from_webhook wDB 100 "tx-1234567890" "CANCELLED" none none).1 = true)
    ∧ ((get_payment_by_payme_transaction
        (update_payment_from_webhook wDB 100 "tx-1234567890" "CANCELLED" none none).2
        "tx-1234567890").map Payment.status = some "CANCELLED") := by
  have h1 : wDB.payments.find? (fun q => q.payme_transaction_id == some "tx-1234567890") = some wPayment := by rfl
  have h := update_payment_from_webhook_no_state_guard wDB 100 "tx-1234567890" "CANCELLED" none none wPayment h1
  exact ⟨h1, h.1, h.2⟩

/-- C2 counterexample: a `receipts.pay` webhook lands first (status PAID),
then a `receipts.cancel` for the same transaction id arrives: the cancel
overwrites the PAID terminal state with CANCELLED and still answers ok —
the first terminal transition does not win. -/
theorem terminal_state_counterexample :
    let r1 := payme_webhook wDB 100 (.payment_success "tx-1234567890" (some 50) none)
    let r2 := payme_webhook r1.2 200 (.payment_cancelled "tx-1234567890")
    ((get_payment_by_payme_transaction r1.2 "tx-1234567890").map Payment.status = some "PAID")
    ∧ ((get_payment_by_payme_transaction r2.2 "tx-1234567890").map Payment.status = some "CANCELLED")
    ∧ (r2.1 = .ok) := by
  exact ⟨rfl, rfl, rfl⟩

/-- C3 (confirmed): a `PaymentSucceeded` webhook whose transaction id matches
no stored payment: `update_payment_from_webhook` reports not-found (`False`)
and the database is returned untouched — no payment row and no user
subscription field is created or changed; the endpoint then surfaces the
failure as an HTTP 500 error response instead of ok. -/
theorem webhook_unknown_transaction_no_mutation (db : DB) (now : Int) (tid : String)
    (pa : Option Int) (cq : Option String)
    (h : get_payment_by_payme_transaction db tid = none) :
    (update_payment_from_webhook db now tid "PAID" pa cq = (false, db))
    ∧ (payme_webhook db now (.payment_success tid pa cq) = (.serverError "Failed to process webhook", db)) := by
  have hfind : db.payments.find? (fun q => q.payme_transaction_id == some tid) = none := h
  have h1 := update_payment_from_webhook_none db now tid "PAID" pa cq hfind
  refine ⟨h1, ?_⟩
  unfold payme_webhook
  dsimp only
  rw [h1]
  rfl

/-- C3 witness: an unknown transaction id on the concrete fixture. -/
theorem webhook_unknown_transaction_witness :
    (get_payment_by_payme_transaction wDB "tx-unknown" = none)
    ∧ (update_payment_from_webhook wDB 100 "tx-unknown" "PAID" none none = (false, wDB))
    ∧ (payme_webhook wDB 100 (.payment_success "tx-unknown" none none)
        = (.serverError "Failed to process webhook", wDB)) := by
  have h0 : get_payment_by_payme_transaction wDB "tx-unknown" = none := by rfl
  have h := webhook_unknown_transaction_no_mutation wDB 100 "tx-unknown" none none h0
  exact ⟨h0, h.1, h.2⟩

/-- C5 (confirmed, under the symbolic-crypto idealization): verifying a
payload against the signature computed over that payload with the
`signature` field excluded succeeds; for a collision-free digest, a payload
whose stripped canonical serialization differs (any field mutation) fails
verification against the original signature; an empty supplied signature and
an unserializable payload both yield `false` rather than an exception.
(`hdig` records that a real HMAC hex digest is never the empty string.) -/
theorem verify_webhook_signature_correct (svc : PaymeService)
    (fs fs' gs : List (String × JVal)) (m m' : String) (sig : String)
    (hm : serializeJ (.obj (removeSig fs)) = some m)
    (hm' : serializeJ (.obj (removeSig fs')) = some m')
    (hne : m' ≠ m)
    (hinj : Function.Injective (svc.hmacHex svc.secret_key))
    (hdig : svc.hmacHex svc.secret_key m ≠ "") :
    serializeJ (.obj (removeSig gs)) = none →
    (svc.generate_signature (.obj (removeSig fs)) = some (svc.hmacHex svc.secret_key m))
    ∧ (svc.verify_webhook_signature (.obj fs) (svc.hmacHex svc.secret_key m) = true)
    ∧ (svc.verify_webhook_signature (.obj fs') (svc.hmacHex svc.secret_key m) = false)
    ∧ (svc.verify_webhook_signature (.obj fs) "" = false)
    ∧ (svc.verify_webhook_signature (.obj gs) sig = false) := by
  intro hg
  have hgen : svc.generate_signature (.obj (removeSig fs)) = some (svc.hmacHex svc.secret_key m) := by
    unfold PaymeService.generate_signature
    rw [hm]
    rfl
  have hgen' : svc.generate_signature (.obj (removeSig fs')) = some (svc.hmacHex svc.secret_key m') := by
    unfold PaymeService.generate_signature
    rw [hm']
    rfl
  refine ⟨hgen, ?_, ?_, ?_, ?_⟩
  · unfold PaymeService.verify_webhook_signature
    rw [if_neg hdig]
    dsimp only
    rw [hgen]
    simp
  · unfold PaymeService.verify_webhook_signature
    rw [if_neg hdig]
    dsimp only
    rw [hgen']
    simp only [beq_eq_false_iff_ne, ne_eq]
    intro heq
    exact hne (hinj heq.symm)
  · unfold PaymeService.verify_webhook_signature
    rw [if_pos rfl]
  · unfold PaymeService.verify_webhook_signature
    by_cases hsig : sig = ""
    · rw [if_pos hsig]
    · rw [if_neg hsig]
      dsimp only
      unfold PaymeService.generate_signature
      rw [hg]
      rfl

/-- C5 witness: the identity digest (injective) on concrete payloads: the
original `receipts.pay` payload verifies, the mutated one fails, the empty
signature fails, and a payload holding a non-serializable value fails. -/
theorem verify_webhook_signature_correct_witness :
    (serializeJ (.obj (removeSig [("method", .str "receipts.pay")]))
      = some "\x7b\"method\":\"receipts.pay\"\x7d")
    ∧ ("\x7b\"method\":\"receipts.x\"\x7d" ≠ "\x7b\"method\":\"receipts.pay\"\x7d")
    ∧ Function.Injective (svcId.hmacHex svcId.secret_key)
    ∧ (svcId.verify_webhook_signature (.obj [("method", .str "receipts.pay")])
        (svcId.hmacHex svcId.secret_key "\x7b\"method\":\"receipts.pay\"\x7d") = true)
    ∧ (svcId.verify_webhook_signature (.obj [("method", .str "receipts.x")])
        (svcId.hmacHex svcId.secret_key "\x7b\"method\":\"receipts.pay\"\x7d") = false)
    ∧ (svcId.verify_webhook_signature (.obj [("method", .str "receipts.pay")]) "" = false)
    ∧ (svcId.verify_webhook_signature (.obj [("bad", .raw 0)]) "s" = false) := by
  have hinj : Function.Injective (svcId.hmacHex svcId.secret_key) := fun a b h => h
  have h := verify_webhook_signature_correct svcId
    [("method", .str "receipts.pay")] [("method", .str "receipts.x")] [("bad", .raw 0)]
    "\x7b\"method\":\"receipts.pay\"\x7d" "\x7b\"method\":\"receipts.x\"\x7d" "s"
    (by rfl) (by rfl) (by decide) hinj (by decide) (by rfl)
  exact ⟨by rfl, by decide, hinj, h.2.1, h.2.2.1, h.2.2.2.1, h.2.2.2.2⟩

/-- C10 (confirmed): the `CreateTransaction` request body that
`PaymeService.create_payment` posts for a valid purchase carries exactly the
ledger amount multiplied by 100 in `params.amount`. -/
theorem create_transaction_amount_subunits (amount : Int) (order_id tid : String) (now : Int)
    (h0 : 0 < amount) (hord : order_id ≠ "") :
    lookupField (create_payment_outbound amount order_id tid now) "params"
      = some (.obj [("id", .str tid), ("time", .num now), ("amount", .num (amount * 100)),
                    ("account", .obj [("order_id", .str order_id)])]) := by
  rfl

/-- C10 witness: a 50000-unit purchase posts `params.amount = 5000000`. -/
theorem create_transaction_amount_subunits_witness :
    (0 : Int) < 50000 ∧ ("order-1" : String) ≠ ""
    ∧ lookupField (create_payment_outbound 50000 "order-1" "uuid-1" 777) "params"
      = some (.obj [("id", .str "uuid-1"), ("time", .num 777), ("amount", .num (50000 * 100)),
                    ("account", .obj [("order_id", .str "order-1")])]) :=
  ⟨by decide, by decide,
   create_transaction_amount_subunits 50000 "order-1" "uuid-1" 777 (by decide) (by decide)⟩

/-- C8 (confirmed): whenever `check_transaction` reports success, the dict it
returns has a `state` key but no `status` key, so
`check_transaction_status_route` — which reads `payme_result['status']` —
hits a `KeyError` and answers HTTP 500 for every locally known transaction
whose remote query succeeded. -/
theorem check_status_route_keyerror (db : DB) (tid : String) (svc : PaymeService)
    (net : NetOutcome) (r : List (String × JVal))
    (hlen : ¬ tid.length < 10)
    (hloc : (get_payment_by_payme_transaction db tid).isSome)
    (hr : svc.check_transaction tid net = .ok r)
    (hsucc : lookupField r "success" = some (.bool true)) :
    (lookupField r "status" = none)
    ∧ (check_transaction_status_route db tid svc net = .httpError 500 "Internal server error") := by
  have hshape : lookupField r "status" = none := by
    unfold PaymeService.check_transaction at hr
    split at hr
    · injection hr with hr
      subst hr
      simp [lookupField] at hsucc
    · split at hr
      · injection hr with hr
        subst hr
        simp [lookupField] at hsucc
      · split at hr
        · split at hr
          · split at hr
            · injection hr with hr
              subst hr
              simp [lookupField]
            · exact absurd hr (by simp)
          · injection hr with hr
            subst hr
            simp [lookupField] at hsucc
        · injection hr with hr
          subst hr
          simp [lookupField] at hsucc
  refine ⟨hshape, ?_⟩
  unfold check_transaction_status_route
  rw [if_neg hlen]
  obtain ⟨pay, hpay⟩ := Option.isSome_iff_exists.mp hloc
  rw [hpay]
  dsimp only
  rw [hr]
  dsimp only
  rw [hsucc]
  dsimp only [truthy]
  rw [if_pos rfl, hshape]

/-- C8 witness: a locally known transaction and a successful remote query:
the snapshot has `state` but no `status`, and the endpoint answers 500. -/
theorem check_status_route_keyerror_witness :
    (¬ ("tx-1234567890" : String).length < 10)
    ∧ ((get_payment_by_payme_transaction wDB "tx-1234567890").isSome)
    ∧ (svcId.check_transaction "tx-1234567890"
        (.reply 200 "" (.parsed [("result", .obj [("state", .num 4)])])) = .ok wCheckDict)
    ∧ (lookupField wCheckDict "success" = some (.bool true))
    ∧ (lookupField wCheckDict "status" = none)
    ∧ (check_transaction_status_route wDB "tx-1234567890" svcId
        (.reply 200 "" (.parsed [("result", .obj [("state", .num 4)])]))
        = .httpError 500 "Internal server error") := by
  have h := check_status_route_keyerror wDB "tx-1234567890" svcId
    (.reply 200 "" (.parsed [("result", .obj [("state", .num 4)])])) wCheckDict
    (by decide) (by rfl) (by rfl) (by rfl)
  exact ⟨by decide, by rfl, by rfl, by rfl, h.1, h.2⟩

theorem make_request_failure (svc : PaymeService) (method : String)
    (data : List (String × JVal)) (net : NetOutcome) (msg : String) (s : String)
    (hser : serializeJ (.obj (preparedRequest method data)) = some s)
    (hfail : gatewayFailureMsg net = some msg) :
    svc.make_request method data net
      = .error ⟨msg, gatewayFailureCode net, gatewayFailureData net⟩ := by
  unfold PaymeService.make_request PaymeService.generate_signature
  rw [hser]
  cases net with
  | timeout =>
    dsimp only [gatewayFailureMsg] at hfail
    injection hfail with h
    subst h
    rfl
  | connError =>
    dsimp only [gatewayFailureMsg] at hfail
    injection hfail with h
    subst h
    rfl
  | reqError m =>
    dsimp only [gatewayFailureMsg] at hfail
    injection hfail with h
    subst h
    rfl
  | reply st text body =>
    dsimp only [gatewayFailureMsg] at hfail
    dsimp only [gatewayFailureCode, gatewayFailureData, Option.map]
    by_cases h200 : st = 200
    · subst h200
      rw [if_neg (by simp)] at hfail
      rw [if_neg (by simp), if_neg (by simp), if_neg (by simp)]
      cases body with
      | invalid reason =>
        dsimp only at hfail ⊢
        injection hfail with h
        subst h
        rfl
      | parsed fs =>
        dsimp only at hfail ⊢
        rcases hlk : lookupField fs "error" with _ | v
        · rw [hlk] at hfail
          simp at hfail
        · rw [hlk] at hfail
          cases v <;> (dsimp only at hfail ⊢; injection hfail with h; subst h; rfl)
    · have hne : st ≠ 200 := h200
      rw [if_pos hne] at hfail
      rw [if_pos hne, if_pos hne, if_pos hne]
      injection hfail with h
      subst h
      rfl

theorem create_data_serializable (amount : Int) (order_id tid : String) (now : Int) :
    ∃ s, serializeJ (.obj (preparedRequest "CreateTransaction"
      (create_payment_data amount order_id tid now))) = some s :=
  ⟨_, rfl⟩

theorem check_data_serializable (tid : String) :
    ∃ s, serializeJ (.obj (preparedRequest "CheckTransaction"
      [("params", .obj [("id", .str tid)])])) = some s :=
  ⟨_, rfl⟩

theorem cancel_data_serializable (tid : String) (reason : Int) :
    ∃ s, serializeJ (.obj (preparedRequest "CancelTransaction"
      [("params", .obj [("id", .str tid), ("reason", .num reason)])])) = some s :=
  ⟨_, rfl⟩

/-- C4 (amended): for the enumerated failure modes — timeout, connection
failure, other request errors, non-2xx status, invalid JSON reply, provider
error envelope — `create_payment`, `check_transaction` and
`cancel_transaction` all catch the normalized `PaymeAPIError` and return a
tagged failure value (`success=False`) carrying the human-readable message
and, via `data`, the provider envelope with its error code when there is
one.  (The boundary is however not exception-proof for every reply shape —
see the counterexample.) -/
theorem gateway_ops_tagged_failure (svc : PaymeService) (amount : Int)
    (order_id gtid tid : String) (gnow reason : Int) (net : NetOutcome) (msg : String)
    (hfail : gatewayFailureMsg net = some msg)
    (h0 : 0 < amount) (hord : order_id ≠ "") (htid : tid ≠ "") :
    (svc.create_payment amount order_id gtid gnow net
      = .ok { success := false, transaction_id := none, error := some msg,
              data := gatewayFailureData net })
    ∧ (svc.check_transaction tid net
      = .ok [("success", .bool false), ("error", .str msg),
             ("data", (gatewayFailureData net).getD .null)])
    ∧ (svc.cancel_transaction tid reason net
      = .ok [("success", .bool false), ("error", .str msg),
             ("data", (gatewayFailureData net).getD .null)]) := by
  obtain ⟨s1, hs1⟩ := create_data_serializable amount order_id gtid gnow
  obtain ⟨s2, hs2⟩ := check_data_serializable tid
  obtain ⟨s3, hs3⟩ := cancel_data_serializable tid reason
  refine ⟨?_, ?_, ?_⟩
  · unfold PaymeService.create_payment
    rw [if_neg (not_le.mpr h0), if_neg hord,
        make_request_failure svc _ _ net msg s1 hs1 hfail]
  · unfold PaymeService.check_transaction
    rw [if_neg htid, make_request_failure svc _ _ net msg s2 hs2 hfail]
  · unfold PaymeService.cancel_transaction
    rw [if_neg htid, make_request_failure svc _ _ net msg s3 hs3 hfail]

/-- C4 witness: a provider error envelope with a code: all three operations
return `success=False` with the envelope message, and `data` carries the
envelope including `code = -31003`. -/
theorem gateway_ops_tagged_failure_witness :
    (gatewayFailureMsg wEnvNet = some "Order not found")
    ∧ ((0 : Int) < 500) ∧ (("order-1" : String) ≠ "") ∧ (("tx-1" : String) ≠ "")
    ∧ (svcId.create_payment 500 "order-1" "uuid-1" 0 wEnvNet
      = .ok { success := false, transaction_id := none, error := some "Order not found",
              data := gatewayFailureData wEnvNet })
    ∧ (svcId.check_transaction "tx-1" wEnvNet
      = .ok [("success", .bool false), ("error", .str "Order not found"),
             ("data", (gatewayFailureData wEnvNet).getD .null)])
    ∧ (svcId.cancel_transaction "tx-1" 3 wEnvNet
      = .ok [("success", .bool false), ("error", .str "Order not found"),
             ("data", (gatewayFailureData wEnvNet).getD .null)]) := by
  have h := gateway_ops_tagged_failure svcId 500 "order-1" "uuid-1" "tx-1" 0 3
    wEnvNet "Order not found" (by rfl) (by decide) (by decide) (by decide)
  exact ⟨by rfl, by decide, by decide, by decide, h.1, h.2.1, h.2.2⟩

/-- C4 counterexample: a 200 reply whose `result.transaction` is a truthy
dict without an `id` key: `transaction['id']` raises `KeyError`, which the
`except (PaymeValidationError, PaymeAPIError)` clause does not catch — the
exception escapes `create_payment`, so the caller does NOT receive a
discriminated success/failure value on every input. -/
theorem create_payment_raises_counterexample :
    svcId.create_payment 500 "order-1" "uuid-1" 0
      (.reply 200 "" (.parsed [("result", .obj [("transaction", .obj [("note", .num 1)])])]))
      = .error .keyError := by
  rfl

/-- Once the tariff checks and the upgrade gate pass, `create_payment_route`
inserts the PENDING row and reconciles the gateway result. -/
theorem create_payment_route_proceed (db : DB) (now : Int) (user : UserAcct)
    (tariff_id : Nat) (amount : Int) (req_user_id pid : String) (svc : PaymeService)
    (gtid : String) (gnow : Int) (net : NetOutcome) (tariff : TariffRow)
    (hfind : db.tariffs.find? (fun t => t.id == tariff_id) = some tariff)
    (hact : tariff.is_active = true)
    (hamt : amount = tariff.price.floor)
    (hgate : upgradeGate db now user tariff = none) :
    create_payment_route db now user tariff_id amount req_user_id pid svc gtid gnow net =
      (let db1 : DB := { db with payments := db.payments ++ [newPaymePayment pid req_user_id amount tariff_id now] }
       match svc.create_payment amount pid gtid gnow net with
       | .error _ => (.httpError 500 "Internal server error", db1)
       | .ok r =>
         if r.success then
           (.payResponse true r.transaction_id none,
             (update_payment_with_payme_data db1 pid (pyStr (r.transaction_id.getD .null)) none now).2)
         else
           (.payResponse false none (some (r.error.getD "Failed to create payment")),
             (mark_payment_failed db1 pid (some "PAYME_CREATE_FAILED")
               (some (r.error.getD "Unknown error")) now).2)) := by
  unfold create_payment_route
  rw [hfind]
  dsimp only
  rw [if_neg (by simp [hact]), if_neg (not_not_intro hamt), hgate]

theorem update_payment_with_payme_data_any_id (db : DB) (payment_id tx : String)
    (cq : Option String) (now : Int) (pid : String) :
    ((update_payment_with_payme_data db payment_id tx cq now).2.payments.any (fun p => p.id == pid))
      = db.payments.any (fun p => p.id == pid) := by
  unfold update_payment_with_payme_data
  split
  · dsimp only
    apply replaceFirstP_any
    intro a
    rfl
  · rfl

theorem mark_payment_failed_any_id (db : DB) (payment_id : String)
    (ec em : Option String) (now : Int) (pid : String) :
    ((mark_payment_failed db payment_id ec em now).2.payments.any (fun p => p.id == pid))
      = db.payments.any (fun p => p.id == pid) := by
  unfold mark_payment_failed
  split
  · dsimp only
    apply replaceFirstP_any
    intro a
    rfl
  · rfl

/-- Whatever the gateway outcome, the row inserted by an admitted purchase
initiation is still present afterwards (it is never deleted). -/
theorem create_payment_route_row_persists (db : DB) (now : Int) (user : UserAcct)
    (tariff_id : Nat) (amount : Int) (req_user_id pid : String) (svc : PaymeService)
    (gtid : String) (gnow : Int) (net : NetOutcome) (tariff : TariffRow)
    (hfind : db.tariffs.find? (fun t => t.id == tariff_id) = some tariff)
    (hact : tariff.is_active = true)
    (hamt : amount = tariff.price.floor)
    (hgate : upgradeGate db now user tariff = none) :
    ((create_payment_route db now user tariff_id amount req_user_id pid svc gtid gnow net).2.payments.any
      (fun p => p.id == pid)) = true := by
  rw [create_payment_route_proceed db now user tariff_id amount req_user_id pid svc gtid gnow net
      tariff hfind hact hamt hgate]
  have hbase : ((db.payments ++ [newPaymePayment pid req_user_id amount tariff_id now]).any
      (fun p => p.id == pid)) = true := by
    simp [List.any_append, newPaymePayment]
  cases hsvc : svc.create_payment amount pid gtid gnow net with
  | error e =>
    dsimp only
    exact hbase
  | ok r =>
    dsimp only
    by_cases hs : r.success = true
    · rw [if_pos hs, update_payment_with_payme_data_any_id]
      exact hbase
    · rw [if_neg hs, mark_payment_failed_any_id]
      exact hbase

/-- C6 (confirmed): with the tariff checks passed, an account whose current
plan is unexpired is denied any purchase of a tariff priced `≤` the current
one, the denial detail carries the current expiry, and the state is returned
unchanged (no payment row); a strictly more expensive tariff, or any
purchase after the expiry has passed, reaches the gateway and a payment row
with the fresh id exists afterwards. -/
theorem purchase_upgrade_gate (db : DB) (now : Int) (user : UserAcct)
    (tariff_id : Nat) (amount : Int) (req_user_id pid : String) (svc : PaymeService)
    (gtid : String) (gnow : Int) (net : NetOutcome) (tariff cur : TariffRow)
    (cur_id : Nat) (cur_exp : Int)
    (hfind : db.tariffs.find? (fun t => t.id == tariff_id) = some tariff)
    (hact : tariff.is_active = true)
    (hamt : amount = tariff.price.floor)
    (hcur : user.tariff_id = some cur_id)
    (hexp : user.tariff_expires_at = some cur_exp)
    (hcurf : db.tariffs.find? (fun t => t.id == cur_id) = some cur) :
    (now < cur_exp → tariff.price ≤ cur.price →
      create_payment_route db now user tariff_id amount req_user_id pid svc gtid gnow net
        = (.httpError 400 (downgradeDetail cur_exp), db))
    ∧ (now < cur_exp → cur.price < tariff.price →
      ((create_payment_route db now user tariff_id amount req_user_id pid svc gtid gnow net).2.payments.any
        (fun p => p.id == pid)) = true)
    ∧ (cur_exp ≤ now →
      ((create_payment_route db now user tariff_id amount req_user_id pid svc gtid gnow net).2.payments.any
        (fun p => p.id == pid)) = true) := by
  refine ⟨?_, ?_, ?_⟩
  · intro hnow hcheap
    unfold create_payment_route
    rw [hfind]
    dsimp only
    rw [if_neg (by simp [hact]), if_neg (not_not_intro hamt)]
    have hgate : upgradeGate db now user tariff = some (.httpError 400 (downgradeDetail cur_exp)) := by
      unfold upgradeGate
      rw [hcur, hexp]
      dsimp only
      rw [if_pos hnow, hcurf]
      dsimp only
      rw [if_pos hcheap]
    rw [hgate]
  · intro hnow hdear
    have hgate : upgradeGate db now user tariff = none := by
      unfold upgradeGate
      rw [hcur, hexp]
      dsimp only
      rw [if_pos hnow, hcurf]
      dsimp only
      rw [if_neg (not_le.mpr hdear)]
    exact create_payment_route_row_persists db now user tariff_id amount req_user_id pid svc
      gtid gnow net tariff hfind hact hamt hgate
  · intro hpast
    have hgate : upgradeGate db now user tariff = none := by
      unfold upgradeGate
      rw [hcur, hexp]
      dsimp only
      rw [if_neg (not_lt.mpr hpast)]
    exact create_payment_route_row_persists db now user tariff_id amount req_user_id pid svc
      gtid gnow net tariff hfind hact hamt hgate

/-- C6 witness: at time 500 the user is active on tariff 8 (price 100000,
expires 1000); buying tariff 7 (price 50000) is gated, buying something
pricier or waiting past expiry proceeds. -/
theorem purchase_upgrade_gate_witness :
    (wDB2.tariffs.find? (fun t => t.id == 7) = some wTariff)
    ∧ (wTariff.is_active = true)
    ∧ ((50000 : Int) = wTariff.price.floor)
    ∧ (wUserActive.tariff_id = some 8)
    ∧ (wUserActive.tariff_expires_at = some 1000)
    ∧ (wDB2.tariffs.find? (fun t => t.id == 8) = some wTariffB)
    ∧ (((500 : Int) < 1000 → wTariff.price ≤ wTariffB.price →
        create_payment_route wDB2 500 wUserActive 7 50000 "user-1" "pay-1" svcId "g" 0 .timeout
          = (.httpError 400 (downgradeDetail 1000), wDB2))
      ∧ ((500 : Int) < 1000 → wTariffB.price < wTariff.price →
        ((create_payment_route wDB2 500 wUserActive 7 50000 "user-1" "pay-1" svcId "g" 0 .timeout).2.payments.any
          (fun p => p.id == "pay-1")) = true)
      ∧ ((1000 : Int) ≤ 500 →
        ((create_payment_route wDB2 500 wUserActive 7 50000 "user-1" "pay-1" svcId "g" 0 .timeout).2.payments.any
          (fun p => p.id == "pay-1")) = true)) := by
  have hamt : (50000 : Int) = wTariff.price.floor := by decide
  have h := purchase_upgrade_gate wDB2 500 wUserActive 7 50000 "user-1" "pay-1" svcId "g" 0
    .timeout wTariff wTariffB 8 1000 (by rfl) (by rfl) hamt (by rfl) (by rfl) (by rfl)
  exact ⟨by rfl, by rfl, hamt, by rfl, by rfl, by rfl, h⟩

theorem find?_append_fresh (l : List Payment) (pid : String) (p : Payment)
    (hfresh : ∀ q ∈ l, (q.id == pid) = false) (hp : (p.id == pid) = true) :
    (l ++ [p]).find? (fun q => q.id == pid) = some p := by
  induction l with
  | nil => simp [List.find?, hp]
  | cons b bs ih =>
    have hb := hfresh b (by simp)
    rw [List.cons_append, List.find?_cons_of_neg _ (by simp [hb])]
    exact ih (fun q hq => hfresh q (by simp [hq]))

theorem mark_payment_failed_found (db : DB) (pid : String) (ec em : Option String)
    (now : Int) (p : Payment)
    (h : db.payments.find? (fun q => q.id == pid) = some p) :
    mark_payment_failed db pid ec em now =
      (true, { db with payments := (replaceFirstP (fun q => q.id == pid)
        (fun q => { q with status := "FAILED", payme_error_code := ec,
                           payme_error_message := em, updated_at := some now })
        db.payments) }) := by
  unfold mark_payment_failed
  rw [any_eq_true_of_find? h]
  rfl

/-- C7 (confirmed): when the gateway call made during an admitted purchase
initiation fails (any enumerated failure mode), the caller receives the
failure response carrying the message, and the PENDING row created before
the call still exists, transitioned to FAILED with error code
`PAYME_CREATE_FAILED` and the gateway message — the audit row is never
deleted. -/
theorem gateway_failure_keeps_audit_row (db : DB) (now : Int) (user : UserAcct)
    (tariff_id : Nat) (amount : Int) (req_user_id pid : String) (svc : PaymeService)
    (gtid : String) (gnow : Int) (net : NetOutcome) (tariff : TariffRow) (msg : String)
    (hfind : db.tariffs.find? (fun t => t.id == tariff_id) = some tariff)
    (hact : tariff.is_active = true)
    (hamt : amount = tariff.price.floor)
    (hgate : upgradeGate db now user tariff = none)
    (hfail : gatewayFailureMsg net = some msg)
    (h0 : 0 < amount) (hpid : pid ≠ "")
    (hfresh : ∀ q ∈ db.payments, (q.id == pid) = false) :
    ((create_payment_route db now user tariff_id amount req_user_id pid svc gtid gnow net).1
      = .payResponse false none (some msg))
    ∧ ((create_payment_route db now user tariff_id amount req_user_id pid svc gtid gnow net).2.payments.find?
        (fun q => q.id == pid)
      = some { newPaymePayment pid req_user_id amount tariff_id now with
               status := "FAILED", payme_error_code := some "PAYME_CREATE_FAILED",
               payme_error_message := some msg, updated_at := some now }) := by
  have hsvc := (gateway_ops_tagged_failure svc amount pid gtid pid gnow 0 net msg hfail h0 hpid hpid).1
  have hroute := create_payment_route_proceed db now user tariff_id amount req_user_id pid svc
    gtid gnow net tariff hfind hact hamt hgate
  have hbase : (db.payments ++ [newPaymePayment pid req_user_id amount tariff_id now]).find?
      (fun q => q.id == pid) = some (newPaymePayment pid req_user_id amount tariff_id now) := by
    apply find?_append_fresh _ _ _ hfresh
    simp [newPaymePayment]
  have hmark := mark_payment_failed_found
    { db with payments := db.payments ++ [newPaymePayment pid req_user_id amount tariff_id now] }
    pid (some "PAYME_CREATE_FAILED") (some msg) now
    (newPaymePayment pid req_user_id amount tariff_id now) hbase
  constructor
  · rw [hroute]
    dsimp only
    rw [hsvc]
    rfl
  · rw [hroute]
    dsimp only
    rw [hsvc]
    dsimp only [Option.getD]
    rw [hmark]
    dsimp only
    apply replaceFirstP_find?_eq _ _ _ _ hbase
    simp [newPaymePayment]

/-- C7 witness: gateway timeout during an admitted purchase: the caller gets
the failure response and the FAILED audit row is present. -/
theorem gateway_failure_keeps_audit_row_witness :
    (wDB2.tariffs.find? (fun t => t.id == 7) = some wTariff)
    ∧ (upgradeGate wDB2 500 wUser wTariff = none)
    ∧ (gatewayFailureMsg .timeout = some "Request timeout")
    ∧ ((create_payment_route wDB2 500 wUser 7 50000 "user-1" "pay-1" svcId "g" 0 .timeout).1
        = .payResponse false none (some "Request timeout"))
    ∧ ((create_payment_route wDB2 500 wUser 7 50000 "user-1" "pay-1" svcId "g" 0 .timeout).2.payments.find?
        (fun q => q.id == "pay-1")
        = some { newPaymePayment "pay-1" "user-1" 50000 7 500 with
                 status := "FAILED", payme_error_code := some "PAYME_CREATE_FAILED",
                 payme_error_message := some "Request timeout", updated_at := some 500 }) := by
  have h := gateway_failure_keeps_audit_row wDB2 500 wUser 7 50000 "user-1" "pay-1" svcId "g" 0
    .timeout wTariff "Request timeout" (by rfl) (by rfl) (by decide) (by rfl) (by rfl)
    (by decide) (by decide) (by simp [wDB2])
  exact ⟨by rfl, by rfl, by rfl, h.1, h.2⟩

theorem distinctUserCount_eq_dedup (rs : List ReviewRow) (cid : Nat) :
    distinctUserCount rs cid = (usersOfCard rs cid).dedup.length := rfl

theorem totalReviewCount_eq_length (rs : List ReviewRow) (cid : Nat) :
    totalReviewCount rs cid = (usersOfCard rs cid).length := by
  unfold totalReviewCount usersOfCard
  rw [List.length_map]

theorem usersOfCard_append_single (l : List ReviewRow) (rv : ReviewRow) (x : Nat) :
    usersOfCard (l ++ [rv]) x
      = usersOfCard l x ++ (if rv.card_id == x then [rv.user_id] else []) := by
  unfold usersOfCard
  rw [List.filter_append, List.map_append]
  congr 1
  by_cases hc : (rv.card_id == x) = true
  · simp [List.filter, hc]
  · simp [List.filter, hc]

theorem not_mem_usersOfCard (l : List ReviewRow) (cid uid : Nat)
    (h : l.any (fun r => r.card_id == cid && r.user_id == uid) = false) :
    uid ∉ usersOfCard l cid := by
  intro hmem
  unfold usersOfCard at hmem
  rw [List.mem_map] at hmem
  obtain ⟨r, hr, hru⟩ := hmem
  rw [List.mem_filter] at hr
  rw [List.any_eq_false] at h
  have hcontra := h r hr.1
  simp [hr.2, hru] at hcontra

theorem usersOfCard_cons (b : ReviewRow) (l : List ReviewRow) (x : Nat) :
    usersOfCard (b :: l) x
      = (if (b.card_id == x) = true then [b.user_id] else []) ++ usersOfCard l x := by
  unfold usersOfCard
  by_cases hbx : (b.card_id == x) = true
  · simp [List.filter_cons, hbx]
  · simp [List.filter_cons, hbx]

theorem usersOfCard_replace (l : List ReviewRow) (pr : ReviewRow → Bool) (rv rv' : ReviewRow)
    (hfind : l.find? pr = some rv)
    (hc : rv'.card_id = rv.card_id) (hu : rv'.user_id = rv.user_id) (x : Nat) :
    usersOfCard (replaceFirstP pr (fun _ => rv') l) x = usersOfCard l x := by
  induction l with
  | nil => rfl
  | cons b bs ih =>
    by_cases hb : pr b = true
    · rw [List.find?_cons_of_pos _ hb] at hfind
      injection hfind with hfind
      have hre : replaceFirstP pr (fun _ => rv') (b :: bs) = rv' :: bs := by
        simp [replaceFirstP, hb]
      have hcb : rv'.card_id = b.card_id := by rw [hc, hfind]
      have hub : rv'.user_id = b.user_id := by rw [hu, hfind]
      rw [hre, usersOfCard_cons, usersOfCard_cons, hcb, hub]
    · rw [List.find?_cons_of_neg _ hb] at hfind
      have hre : replaceFirstP pr (fun _ => rv') (b :: bs)
          = b :: replaceFirstP pr (fun _ => rv') bs := by
        simp [replaceFirstP, hb]
      rw [hre, usersOfCard_cons, usersOfCard_cons, ih hfind]

theorem create_review_inv (s : ReviewState) (cid uid : Nat) (q : Rat) (c : Option String)
    (s' : ReviewState) (h : create_review s cid uid q c = some s') (hinv : ReviewInv s) :
    ReviewInv s' := by
  unfold create_review at h
  split at h
  · exact Option.noConfusion h
  split at h
  · exact Option.noConfusion h
  split at h
  · exact Option.noConfusion h
  split at h
  · exact Option.noConfusion h
  split at h
  · exact Option.noConfusion h
  split at h
  · exact Option.noConfusion h
  split at h
  · exact Option.noConfusion h
  rename_i hdup
  injection h with h
  subst h
  intro x
  dsimp only
  rw [usersOfCard_append_single]
  by_cases hcx : (cid == x) = true
  · have hx : cid = x := by simpa using hcx
    subst hx
    rw [if_pos (by simp)]
    have hdup' : s.reviews.any (fun r => r.card_id == cid && r.user_id == uid) = false := by
      simpa using hdup
    have hnm := not_mem_usersOfCard s.reviews cid uid hdup'
    rw [List.nodup_append]
    refine ⟨hinv cid, List.nodup_singleton _, ?_⟩
    intro a ha hb
    rw [List.mem_singleton] at hb
    subst hb
    exact hnm ha
  · rw [if_neg hcx]
    simpa using hinv x

theorem update_review_inv (s : ReviewState) (rid uid : Nat) (q : Option Rat)
    (c : Option String) (s' : ReviewState) (h : update_review s rid uid q c = some s')
    (hinv : ReviewInv s) : ReviewInv s' := by
  unfold update_review at h
  split at h
  · exact Option.noConfusion h
  cases hfind : s.reviews.find? (fun r => r.id == rid) with
  | none =>
    rw [hfind] at h
    exact Option.noConfusion h
  | some rv =>
    rw [hfind] at h
    dsimp only at h
    split at h
    · exact Option.noConfusion h
    split at h
    · exact Option.noConfusion h
    split at h
    · exact Option.noConfusion h
    split at h
    · exact Option.noConfusion h
    split at h
    · exact Option.noConfusion h
    split at h
    · exact Option.noConfusion h
    injection h with h
    subst h
    intro x
    dsimp only
    rw [usersOfCard_replace s.reviews (fun r => r.id == rid) rv
        { rv with rating := q.getD rv.rating, comment := c <|> rv.comment } hfind rfl rfl]
    exact hinv x

theorem delete_review_inv (s : ReviewState) (rid uid : Nat) (s' : ReviewState)
    (h : delete_review s rid uid = some s') (hinv : ReviewInv s) : ReviewInv s' := by
  unfold delete_review at h
  split at h
  · exact Option.noConfusion h
  cases hfind : s.reviews.find? (fun r => r.id == rid) with
  | none =>
    rw [hfind] at h
    exact Option.noConfusion h
  | some rv =>
    rw [hfind] at h
    dsimp only at h
    split at h
    · exact Option.noConfusion h
    split at h
    · exact Option.noConfusion h
    split at h
    · exact Option.noConfusion h
    split at h
    · exact Option.noConfusion h
    injection h with h
    subst h
    intro x
    dsimp only
    have hsub : List.Sublist (s.reviews.eraseP (fun r => r.id == rid)) s.reviews :=
      List.eraseP_sublist _
    have hsub2 : List.Sublist (usersOfCard (s.reviews.eraseP (fun r => r.id == rid)) x)
        (usersOfCard s.reviews x) :=
      (hsub.filter _).map _
    exact List.Nodup.sublist hsub2 (hinv x)

theorem applyReviewOp_inv (s : ReviewState) (op : ReviewOp) (hinv : ReviewInv s) :
    ReviewInv (applyReviewOp s op) := by
  cases op with
  | create cid uid q c =>
    unfold applyReviewOp
    dsimp only
    cases hres : create_review s cid uid q c with
    | none => exact hinv
    | some s' => exact create_review_inv s cid uid q c s' hres hinv
  | update rid uid q c =>
    unfold applyReviewOp
    dsimp only
    cases hres : update_review s rid uid q c with
    | none => exact hinv
    | some s' => exact update_review_inv s rid uid q c s' hres hinv
  | delete rid uid =>
    unfold applyReviewOp
    dsimp only
    cases hres : delete_review s rid uid with
    | none => exact hinv
    | some s' => exact delete_review_inv s rid uid s' hres hinv

theorem runReviewOps_inv (ops : List ReviewOp) (s : ReviewState) (hinv : ReviewInv s) :
    ReviewInv (runReviewOps s ops) := by
  induction ops generalizing s with
  | nil => exact hinv
  | cons op rest ih => exact ih _ (applyReviewOp_inv s op hinv)

theorem initReviewState_inv (cards : List CardRow) (users : List Nat) :
    ReviewInv (initReviewState cards users) := by
  intro x
  simp [initReviewState, usersOfCard]

theorem counts_agree_of_nodup (rs : List ReviewRow) (cid : Nat)
    (h : (usersOfCard rs cid).Nodup) :
    distinctUserCount rs cid = totalReviewCount rs cid := by
  rw [distinctUserCount_eq_dedup, totalReviewCount_eq_length, List.dedup_eq_self.mpr h]

theorem reachable_review_counts_agree (cards : List CardRow) (users : List Nat)
    (ops : List ReviewOp) (cid : Nat) :
    distinctUserCount (runReviewOps (initReviewState cards users) ops).reviews cid
      = totalReviewCount (runReviewOps (initReviewState cards users) ops).reviews cid :=
  counts_agree_of_nodup _ _ (runReviewOps_inv ops (initReviewState cards users)
    (initReviewState_inv cards users) cid)

/-- C9 (amended): the three aggregation paths do use two different
`rating_count` formulas — `create_review`/`update_review` store the
distinct-reviewer count while `delete_review` stores the total remaining
review count — but because `create_review` rejects a second review by the
same user on the same card, every review table reachable through the review
operations has at most one review per (card, user), so the two formulas
coincide on every reachable state: the inconsistency is latent, never
observable. -/
theorem review_rating_count_paths_agree :
    ∀ (cards : List CardRow) (users : List Nat) (ops : List ReviewOp) (cid : Nat),
      distinctUserCount (runReviewOps (initReviewState cards users) ops).reviews cid
        = totalReviewCount (runReviewOps (initReviewState cards users) ops).reviews cid :=
  fun cards users ops cid => reachable_review_counts_agree cards users ops cid

/-- C9 counterexample to the claim as stated: NO sequence of review
operations can make the two `rating_count` definitions disagree — the
claimed existence of a disagreeing sequence is false. -/
theorem review_count_disagreement_unreachable : ¬ reviewCountsDisagreeReachable := by
  intro hcl
  obtain ⟨cards, users, ops, cid, hne⟩ := hcl
  exact hne (reachable_review_counts_agree cards users ops cid)
